import Mathlib

/-!
Verification of the visitor-management system's appointment scheduler and
visit/queue state machine, shallowly embedded from the Next.js route handlers
under `src/app/api/`.  Timestamps are modelled as integers (milliseconds, as
returned by JavaScript `Date.getTime()`), database tables as lists of records,
and each HTTP handler as a function from a database state and request payload
to a result paired with the successor state.
-/

namespace VMS

/-- Database identifier (Prisma `String` ids, abstracted to naturals). -/
abbrev Id := Nat

/-- Prisma enum `AppointmentStatus`. -/
inductive AppointmentStatus
  | PENDING
  | CONFIRMED
  | COMPLETED
  | CANCELLED
  | NO_SHOW
deriving DecidableEq, Repr

/-- Prisma enum `VisitStatus`. -/
inductive VisitStatus
  | IN_PROGRESS
  | COMPLETED
  | CANCELLED
  | NO_SHOW
deriving DecidableEq, Repr

/-- Prisma enum `Priority`. -/
inductive Priority
  | URGENT
  | HIGH
  | NORMAL
  | LOW
deriving DecidableEq, Repr

/-- Prisma enum `IssueStatus`. -/
inductive IssueStatus
  | OPEN
  | IN_PROGRESS
  | RESOLVED
  | CLOSED
  | ESCALATED
deriving DecidableEq, Repr

/-- An `Appointment` row, restricted to the fields the scheduler and queue read. -/
structure Appointment where
  id : Id
  visitorId : Id
  userId : Id
  scheduledDate : Int
  startTime : Int
  endTime : Int
  duration : Nat
  status : AppointmentStatus
  priority : Priority
deriving DecidableEq, Repr

/-- A `Visit` row, restricted to the fields the queue state machine reads. -/
structure Visit where
  id : Id
  visitorId : Id
  userId : Id
  appointmentId : Option Id
  checkInTime : Int
  checkOutTime : Option Int
  status : VisitStatus
  notes : Option String
  satisfaction : Option Nat
deriving DecidableEq, Repr

/-- A `Visitor` row, restricted to the fields check-in mutates. -/
structure Visitor where
  id : Id
  visitCount : Nat
  lastVisit : Option Int
deriving DecidableEq, Repr

/-- The relational store: one list per table (users carry no relevant fields
beyond their id). -/
structure Db where
  visitors : List Visitor
  users : List Id
  appointments : List Appointment
  visits : List Visit
deriving DecidableEq, Repr

/-- `db.visitor.findUnique({ where: { id } })`. -/
def findVisitor (db : Db) (vid : Id) : Option Visitor :=
  db.visitors.find? (fun v => v.id == vid)

/-- `db.user.findUnique({ where: { id } })`, reduced to existence. -/
def userExists (db : Db) (uid : Id) : Bool :=
  db.users.contains uid

/-- `db.appointment.findUnique({ where: { id } })`. -/
def findAppointment (db : Db) (aid : Id) : Option Appointment :=
  db.appointments.find? (fun a => a.id == aid)

/-- `db.visit.findUnique({ where: { id } })`. -/
def findVisit (db : Db) (vid : Id) : Option Visit :=
  db.visits.find? (fun w => w.id == vid)

/-- `db.appointment.update({ where: { id }, data: { status } })`. -/
def setAppointmentStatus (db : Db) (aid : Id) (st : AppointmentStatus) : Db :=
  { db with appointments :=
      db.appointments.map (fun a => if a.id == aid then { a with status := st } else a) }

/-- `db.visit.update({ where: { id }, data })`, with the patch given as a
row transformer. -/
def updateVisitRow (db : Db) (vid : Id) (f : Visit → Visit) : Db :=
  { db with visits := db.visits.map (fun w => if w.id == vid then f w else w) }

/-- `db.visitor.update` used by both check-in entry points: increment
`visitCount` and stamp `lastVisit`. -/
def bumpVisitor (db : Db) (vid : Id) (now : Int) : Db :=
  { db with visitors :=
      db.visitors.map (fun v =>
        if v.id == vid then { v with visitCount := v.visitCount + 1, lastVisit := some now }
        else v) }

/-- Outcome of a handler call, keyed by the HTTP status of the JSON response. -/
inductive ApiResult
  | ok
  | okCreated (newId : Id)
  | failure (httpStatus : Nat)
deriving DecidableEq, Repr

/-! ## Appointment scheduler (`createAppointment`, `src/app/api/appointments` POST) -/

/-- The three-branch `OR` of the Prisma conflict query in `createAppointment`:
new start inside existing, new end inside existing, or existing contained in
the new interval. `s`/`e` are the requested start and end instants. -/
def overlapTest (a : Appointment) (s e : Int) : Bool :=
  (a.startTime ≤ s && a.endTime > s) ||
  (a.startTime < e && a.endTime ≥ e) ||
  (a.startTime ≥ s && a.endTime ≤ e)

/-- `status: { notIn: [CANCELLED, NO_SHOW] }`. -/
def liveStatus (st : AppointmentStatus) : Bool :=
  !(st == AppointmentStatus.CANCELLED) && !(st == AppointmentStatus.NO_SHOW)

/-- The conflict `findMany` of `createAppointment`: same staff user, same
scheduled date, status not cancelled/no-show, interval passing `overlapTest`. -/
def conflictsWith (db : Db) (userId : Id) (d : Int) (s e : Int) : List Appointment :=
  db.appointments.filter (fun a =>
    a.userId == userId && a.scheduledDate == d && liveStatus a.status && overlapTest a s e)

/-- The appointment row `createAppointment` inserts on success.  The `status`
field is not set by the handler's `data`; the Prisma schema (not under `src/`)
supplies the default `PENDING`, as the spec also states. -/
def mkAppointment (visitorId userId : Id) (d : Int) (s : Int) (duration : Nat)
    (priority : Priority) (newId : Id) : Appointment :=
  { id := newId, visitorId, userId, scheduledDate := d, startTime := s,
    endTime := s + (duration : Int) * 60000, duration, status := AppointmentStatus.PENDING,
    priority }

/-- `POST /api/appointments` (`createAppointment`): compute
`endTime = startTime + duration minutes`, reject with 409 when the conflict
query is non-empty, then 404 on a dangling visitor or user, else insert. -/
def createAppointment (db : Db) (visitorId userId : Id) (d : Int) (s : Int)
    (duration : Nat) (priority : Priority) (newId : Id) : ApiResult × Db :=
  let e : Int := s + (duration : Int) * 60000
  if (conflictsWith db userId d s e).length > 0 then
    (ApiResult.failure 409, db)
  else if (findVisitor db visitorId).isNone then
    (ApiResult.failure 404, db)
  else if !userExists db userId then
    (ApiResult.failure 404, db)
  else
    (ApiResult.okCreated newId,
     { db with appointments :=
         db.appointments ++ [mkAppointment visitorId userId d s duration priority newId] })

/-! ## Visit state machine (`src/app/api/visits` and `src/app/api/queue/actions`) -/

/-- `db.visit.findFirst({ where: { visitorId, status: IN_PROGRESS } })` reduced
to existence: the duplicate-active-visit guard of both check-in entry points. -/
def hasActiveVisit (db : Db) (visitorId : Id) : Bool :=
  db.visits.any (fun w => w.visitorId == visitorId && w.status == VisitStatus.IN_PROGRESS)

/-- The visit row both check-in entry points insert: status `IN_PROGRESS`,
`checkInTime = now`, no checkout. -/
def mkVisit (visitorId userId : Id) (appointmentId : Option Id) (notes : Option String)
    (now : Int) (newVisitId : Id) : Visit :=
  { id := newVisitId, visitorId, userId, appointmentId, checkInTime := now,
    checkOutTime := none, status := VisitStatus.IN_PROGRESS, notes, satisfaction := none }

/-- Shared tail of both check-in entry points: insert the `IN_PROGRESS` visit,
then increment the visitor's `visitCount` and stamp `lastVisit`. -/
def insertVisit (db : Db) (visitorId userId : Id) (appointmentId : Option Id)
    (notes : Option String) (now : Int) (newVisitId : Id) : ApiResult × Db :=
  let db1 := { db with visits := db.visits ++ [mkVisit visitorId userId appointmentId notes now newVisitId] }
  (ApiResult.okCreated newVisitId, bumpVisitor db1 visitorId now)

/-- `POST /api/visits` (`createVisit` in `src/app/api/visits/route.ts`):
404 on dangling visitor/user/appointment; when an `appointmentId` is given the
appointment is set to `COMPLETED` BEFORE the duplicate-active-visit check, so
the 409 path leaves that update behind; on success insert and bump. -/
def createVisit (db : Db) (visitorId userId : Id) (appointmentId : Option Id)
    (notes : Option String) (now : Int) (newVisitId : Id) : ApiResult × Db :=
  if (findVisitor db visitorId).isNone then (ApiResult.failure 404, db)
  else if !userExists db userId then (ApiResult.failure 404, db)
  else
    match appointmentId with
    | some aid =>
      if (findAppointment db aid).isNone then (ApiResult.failure 404, db)
      else
        let db1 := setAppointmentStatus db aid AppointmentStatus.COMPLETED
        if hasActiveVisit db1 visitorId then (ApiResult.failure 409, db1)
        else insertVisit db1 visitorId userId (some aid) notes now newVisitId
    | none =>
      if hasActiveVisit db visitorId then (ApiResult.failure 409, db)
      else insertVisit db visitorId userId none notes now newVisitId

/-- `POST /api/queue/actions?action=checkin` (`checkInVisitor`): same checks,
but the duplicate-active-visit guard comes FIRST, and a linked appointment is
set to `CONFIRMED` (not `COMPLETED`). -/
def checkInVisitor (db : Db) (visitorId userId : Id) (appointmentId : Option Id)
    (notes : Option String) (now : Int) (newVisitId : Id) : ApiResult × Db :=
  if (findVisitor db visitorId).isNone then (ApiResult.failure 404, db)
  else if !userExists db userId then (ApiResult.failure 404, db)
  else if hasActiveVisit db visitorId then (ApiResult.failure 409, db)
  else
    match appointmentId with
    | some aid =>
      if (findAppointment db aid).isNone then (ApiResult.failure 404, db)
      else
        insertVisit (setAppointmentStatus db aid AppointmentStatus.CONFIRMED)
          visitorId userId (some aid) notes now newVisitId
    | none => insertVisit db visitorId userId none notes now newVisitId

/-- The row update applied by checkout: status `COMPLETED`,
`checkOutTime = now`, `notes: notes || visit.notes`, satisfaction patch. -/
def checkoutXform (notes : Option String) (satisfaction : Option (Option Nat))
    (now : Int) (w : Visit) : Visit :=
  { w with
    status := VisitStatus.COMPLETED, checkOutTime := some now,
    notes := (match notes with | some n => some n | none => w.notes),
    satisfaction := (match satisfaction with | some v => v | none => w.satisfaction) }

/-- `POST /api/queue/actions?action=checkout` (`checkOutVisitor`): 404 when the
visit is missing, 400 when its status is not `IN_PROGRESS`; otherwise apply
`checkoutXform` and set a linked appointment to `COMPLETED`. -/
def checkOutVisitor (db : Db) (visitId : Id) (notes : Option String)
    (satisfaction : Option (Option Nat)) (now : Int) : ApiResult × Db :=
  match findVisit db visitId with
  | none => (ApiResult.failure 404, db)
  | some visit =>
    if visit.status != VisitStatus.IN_PROGRESS then (ApiResult.failure 400, db)
    else
      let db1 := updateVisitRow db visitId (checkoutXform notes satisfaction now)
      match visit.appointmentId with
      | some aid => (ApiResult.ok, setAppointmentStatus db1 aid AppointmentStatus.COMPLETED)
      | none => (ApiResult.ok, db1)

/-- The row update applied by cancellation: status `CANCELLED`,
`checkOutTime = now`, `notes: notes || visit.notes`. -/
def cancelXform (notes : Option String) (now : Int) (w : Visit) : Visit :=
  { w with
    status := VisitStatus.CANCELLED, checkOutTime := some now,
    notes := (match notes with | some n => some n | none => w.notes) }

/-- `POST /api/queue/actions?action=cancel` (`cancelVisit`): same guards as
checkout; applies `cancelXform` and sets a linked appointment to `CANCELLED`. -/
def cancelVisit (db : Db) (visitId : Id) (notes : Option String) (now : Int) :
    ApiResult × Db :=
  match findVisit db visitId with
  | none => (ApiResult.failure 404, db)
  | some visit =>
    if visit.status != VisitStatus.IN_PROGRESS then (ApiResult.failure 400, db)
    else
      let db1 := updateVisitRow db visitId (cancelXform notes now)
      match visit.appointmentId with
      | some aid => (ApiResult.ok, setAppointmentStatus db1 aid AppointmentStatus.CANCELLED)
      | none => (ApiResult.ok, db1)

/-- The `PUT /api/visits/[id]` patch (`updateVisitSchema`): each field is
absent (`none`) or present; a present nullable field carries an inner option. -/
structure VisitPatch where
  status : Option VisitStatus := none
  notes : Option (Option String) := none
  satisfaction : Option (Option Nat) := none
deriving DecidableEq, Repr

/-- `PUT /api/visits/[id]` (`updateVisit` in `src/app/api/visits/[id]/route.ts`):
404 when missing; stamps `checkOutTime = now` when the patch sets status
`COMPLETED` on a visit that is not yet `COMPLETED`; applies the patch with NO
transition guard of any kind. -/
def updateVisit (db : Db) (visitId : Id) (p : VisitPatch) (now : Int) : ApiResult × Db :=
  match findVisit db visitId with
  | none => (ApiResult.failure 404, db)
  | some existing =>
    let stampCheckout : Bool :=
      p.status == some VisitStatus.COMPLETED && existing.status != VisitStatus.COMPLETED
    (ApiResult.ok,
     updateVisitRow db visitId (fun w =>
       { w with
         status := p.status.getD w.status,
         notes := p.notes.getD w.notes,
         satisfaction := p.satisfaction.getD w.satisfaction,
         checkOutTime := if stampCheckout then some now else w.checkOutTime }))

/-! ## Queue view and statistics (`getQueueStatus`, `GET /api/queue`) -/

/-- Appointment fields selected by the queue's `include: { appointment: ... }`. -/
structure ApptInfo where
  id : Id
  priority : Priority
  startTime : Int
deriving DecidableEq, Repr

/-- View of a fetched visit row as the queue handler consumes it. The
`appointment` field is populated only when the originating query `include`s
the appointment relation. -/
structure QueueVisit where
  id : Id
  visitorId : Id
  checkInTime : Int
  checkOutTime : Option Int
  appointment : Option ApptInfo
deriving DecidableEq, Repr

/-- Projection of an appointment row to the queue's selected fields. -/
def apptInfo (a : Appointment) : ApptInfo :=
  { id := a.id, priority := a.priority, startTime := a.startTime }

/-- The optional `userId` query-string filter. -/
def userFilter (uid : Option Id) (w : Visit) : Bool :=
  match uid with
  | some u => w.userId == u
  | none => true

/-- The active-visits query of `getQueueStatus`: all `IN_PROGRESS` visits,
optionally filtered by staff user, WITH the appointment relation included. -/
def activeVisits (db : Db) (uid : Option Id) : List QueueVisit :=
  (db.visits.filter (fun w => w.status == VisitStatus.IN_PROGRESS && userFilter uid w)).map
    (fun w =>
      { id := w.id, visitorId := w.visitorId, checkInTime := w.checkInTime,
        checkOutTime := w.checkOutTime,
        appointment := w.appointmentId.bind (fun aid => (findAppointment db aid).map apptInfo) })

/-- The completed-today query of `getQueueStatus`: same-day `COMPLETED` visits.
Its `include` lists only `visitor` and `user` — NOT `appointment` — so the
`appointment` field of every returned row is absent (`none`). -/
def completedVisitsToday (db : Db) (todayStart : Int) (uid : Option Id) : List QueueVisit :=
  (db.visits.filter (fun w => w.status == VisitStatus.COMPLETED &&
      (todayStart ≤ w.checkInTime && w.checkInTime < todayStart + 86400000) &&
      userFilter uid w)).map
    (fun w =>
      { id := w.id, visitorId := w.visitorId, checkInTime := w.checkInTime,
        checkOutTime := w.checkOutTime, appointment := none })

/-- The wait-time `reduce` of `getQueueStatus`: a visit contributes
`checkInTime - appointment.startTime` only when its fetched row carries an
appointment. -/
def totalWaitTime (l : List QueueVisit) : Int :=
  l.foldl (fun sum v =>
    match v.appointment with
    | some a => sum + (v.checkInTime - a.startTime)
    | none => sum) 0

/-- `queueStats.averageWaitTime`: 0 on an empty set, else the wait-time sum
over the fetched completed visits divided by their count, in minutes. -/
def averageWaitTime (l : List QueueVisit) : ℚ :=
  if l.length > 0 then ((totalWaitTime l : ℚ) / (l.length : ℚ)) / 60000 else 0

/-- The duration `reduce` of `getQueueStatus`: a visit contributes
`checkOutTime - checkInTime` when checked out. -/
def totalVisitDuration (l : List QueueVisit) : Int :=
  l.foldl (fun sum v =>
    match v.checkOutTime with
    | some t => sum + (t - v.checkInTime)
    | none => sum) 0

/-- `queueStats.averageVisitDuration`: 0 on an empty set, else the duration sum
divided by the count, in minutes. -/
def averageVisitDuration (l : List QueueVisit) : ℚ :=
  if l.length > 0 then ((totalVisitDuration l : ℚ) / (l.length : ℚ)) / 60000 else 0

/-- Modelled from the spec: the same-day `COMPLETED` visits with their linked
appointments actually resolved from the store (what the handler would see if
its query included the appointment relation). -/
def specCompletedToday (db : Db) (todayStart : Int) (uid : Option Id) : List Visit :=
  db.visits.filter (fun w => w.status == VisitStatus.COMPLETED &&
    (todayStart ≤ w.checkInTime && w.checkInTime < todayStart + 86400000) &&
    userFilter uid w)

/-- Modelled from the spec: average wait in minutes over same-day `COMPLETED`
visits, `wait = checkInTime - linked-appointment.startTime` when a linked
appointment is present, 0 on an empty set. -/
def specAverageWaitTime (db : Db) (todayStart : Int) (uid : Option Id) : ℚ :=
  let l := specCompletedToday db todayStart uid
  let total : Int := l.foldl (fun sum w =>
    match w.appointmentId.bind (findAppointment db) with
    | some a => sum + (w.checkInTime - a.startTime)
    | none => sum) 0
  if l.length > 0 then ((total : ℚ) / (l.length : ℚ)) / 60000 else 0

/-- `priorityOrder` from the queue sort comparator. -/
def priorityOrder : Priority → Nat
  | Priority.URGENT => 4
  | Priority.HIGH => 3
  | Priority.NORMAL => 2
  | Priority.LOW => 1

/-- `a.appointment?.priority || Priority.NORMAL`. -/
def visitPriority (v : QueueVisit) : Priority :=
  (v.appointment.map (fun a => a.priority)).getD Priority.NORMAL

/-- The sort comparator of `getQueueStatus` as a relation: `a` may precede `b`
iff `a` has strictly greater priority, or equal priority and an earlier-or-equal
check-in time. -/
def queueRel (a b : QueueVisit) : Prop :=
  priorityOrder (visitPriority b) < priorityOrder (visitPriority a) ∨
    (priorityOrder (visitPriority a) = priorityOrder (visitPriority b) ∧
      a.checkInTime ≤ b.checkInTime)

instance : DecidableRel queueRel := fun a b => by
  unfold queueRel; infer_instance

instance : IsTotal QueueVisit queueRel :=
  ⟨fun a b => by unfold queueRel; omega⟩

instance : IsTrans QueueVisit queueRel :=
  ⟨fun a b c hab hbc => by unfold queueRel at hab hbc ⊢; omega⟩

/-- `[...activeVisits].sort(comparator)`: a stable sort of the fetched active
visits by the comparator (JavaScript `Array.prototype.sort` is stable). -/
def sortedActiveVisits (db : Db) (uid : Option Id) : List QueueVisit :=
  List.insertionSort queueRel (activeVisits db uid)

/-! ## Calendar free slots (`getCalendarAppointments`, `GET /api/appointments/calendar`) -/

/-- Candidate slot start offsets in minutes from midnight generated by the two
nested loops: hours 9..16, minutes 0 and 30. -/
def slotOffsets : List Nat :=
  (List.range 8).flatMap (fun i => [(9 + i) * 60, (9 + i) * 60 + 30])

/-- The slot availability test: NO overlapping appointment in the day's fetched
set, with NO status filter (`dayAppointments.some(...)` negated). -/
def slotAvailable (dayAppts : List Appointment) (slotStart slotEnd : Int) : Bool :=
  !(dayAppts.any (fun apt => slotStart < apt.endTime && slotEnd > apt.startTime))

/-- The per-day appointment group the calendar handler iterates over, for a
query filtered to one staff user: all of that user's appointments on the date,
regardless of status. -/
def dayAppointments (db : Db) (userId : Id) (d : Int) : List Appointment :=
  db.appointments.filter (fun a => a.userId == userId && a.scheduledDate == d)

/-- The 30-minute free-slot computation for one day: each candidate slot is
`[dateBase + m minutes, dateBase + m minutes + 30 minutes)` and is kept iff
`slotAvailable`. -/
def availableSlotsForDay (dateBase : Int) (dayAppts : List Appointment) :
    List (Int × Int) :=
  (slotOffsets.map (fun m => (dateBase + (m : Int) * 60000, dateBase + (m : Int) * 60000 + 1800000))).filter
    (fun se => slotAvailable dayAppts se.1 se.2)

/-- Stated from the spec's words: a slot is available iff it does not overlap
any existing NON-CANCELLED appointment for that staff member on that date. -/
def specSlotAvailable (db : Db) (userId : Id) (d : Int) (slotStart slotEnd : Int) : Bool :=
  !((dayAppointments db userId d).any (fun a =>
      !(a.status == AppointmentStatus.CANCELLED) &&
        slotStart < a.endTime && slotEnd > a.startTime))

/-! ## Issue updates (`updateIssue`, `PUT /api/issues/[id]`) -/

/-- An `Issue` row, restricted to the fields the `resolvedDate` rule reads. -/
structure Issue where
  id : Id
  status : IssueStatus
  resolvedDate : Option Int
deriving DecidableEq, Repr

/-- The `PUT /api/issues/[id]` patch restricted to the fields the
`resolvedDate` rule reads: an absent field is `none`; a present `resolvedDate`
carries `none` for JSON `null` or `some t` for a date string. -/
structure IssuePatch where
  status : Option IssueStatus := none
  resolvedDate : Option (Option Int) := none
deriving DecidableEq, Repr

/-- `status === RESOLVED || status === CLOSED`. -/
def isResolvedOrClosed (s : IssueStatus) : Bool :=
  s == IssueStatus.RESOLVED || s == IssueStatus.CLOSED

/-- The `updateData.resolvedDate` field computed by `updateIssue`, tracking
key presence (`none` = key absent, the store keeps the old value): start from
the patch's own `resolvedDate`; auto-stamp `now` when the patch status is
RESOLVED/CLOSED and no `resolvedDate` is stored; clear to null whenever the
patch carries any other status. -/
def resolvedDateField (existing : Issue) (p : IssuePatch) (now : Int) :
    Option (Option Int) :=
  let rd0 := p.resolvedDate
  let rd1 :=
    if (match p.status with | some s => isResolvedOrClosed s | none => false) &&
        existing.resolvedDate.isNone
    then some (some now) else rd0
  if (match p.status with | some s => !isResolvedOrClosed s | none => false)
  then some none else rd1

/-- The issue produced by `PUT /api/issues/[id]` on an existing issue. -/
def applyIssuePatch (existing : Issue) (p : IssuePatch) (now : Int) : Issue :=
  { existing with
    status := p.status.getD existing.status,
    resolvedDate := (resolvedDateField existing p now).getD existing.resolvedDate }

/-! ## Reachable states of the queue state machine -/

/-- One request against a queue entry point: check-in through `POST /api/visits`
(`checkinA`), check-in through the queue action (`checkinB`), checkout, or
cancel. -/
inductive QueueOp
  | checkinA (visitorId userId : Id) (appointmentId : Option Id)
      (notes : Option String) (now : Int) (newVisitId : Id)
  | checkinB (visitorId userId : Id) (appointmentId : Option Id)
      (notes : Option String) (now : Int) (newVisitId : Id)
  | checkout (visitId : Id) (notes : Option String) (satisfaction : Option (Option Nat))
      (now : Int)
  | cancel (visitId : Id) (notes : Option String) (now : Int)
deriving Repr

/-- The successor state of one request (the HTTP result is discarded). -/
def applyOp (db : Db) : QueueOp → Db
  | QueueOp.checkinA v u a n t i => (createVisit db v u a n t i).2
  | QueueOp.checkinB v u a n t i => (checkInVisitor db v u a n t i).2
  | QueueOp.checkout w n s t => (checkOutVisitor db w n s t).2
  | QueueOp.cancel w n t => (cancelVisit db w n t).2

/-- Number of `IN_PROGRESS` visits of one visitor. -/
def activeVisitsCount (db : Db) (vid : Id) : Nat :=
  db.visits.countP (fun w => w.visitorId == vid && w.status == VisitStatus.IN_PROGRESS)

/-- The claimed invariant: at most one `IN_PROGRESS` visit per visitor. -/
def AtMostOneActive (db : Db) : Prop :=
  ∀ vid, activeVisitsCount db vid ≤ 1

/-! ## Concrete states used by scenario witnesses and counterexamples -/

/-- A store holding one visitor (id 1) and one staff user (id 1) and nothing
else. -/
def baseDb : Db :=
  { visitors := [{ id := 1, visitCount := 0, lastVisit := none }],
    users := [1], appointments := [], visits := [] }

/-- `baseDb` after scheduling staff 1 on date 0 at 10:00 (36000000 ms) for
30 minutes (appointment id 1). -/
def c1Db : Db :=
  { baseDb with appointments := [mkAppointment 1 1 0 36000000 30 Priority.NORMAL 1] }

/-- Check-in of visitor 1 with staff 1 at time 100 (visit id 10). -/
def c2Db1 : Db := (checkInVisitor baseDb 1 1 none none 100 10).2

/-- ... then checkout of visit 10 at time 200. -/
def c2Db2 : Db := (checkOutVisitor c2Db1 10 none none 200).2

/-- ... then a second check-in of visitor 1 at time 300 (visit id 11). -/
def c2Db3 : Db := (checkInVisitor c2Db2 1 1 none none 300 11).2

/-- ... then `PUT /api/visits/10` with `{ status: IN_PROGRESS }` at time 400:
the closed visit 10 is re-opened while visit 11 is still active. -/
def c2Db4 : Db := (updateVisit c2Db3 10 { status := some VisitStatus.IN_PROGRESS } 400).2

/-- A store with one `IN_PROGRESS` visit (id 10) of visitor 1. -/
def c5Db : Db :=
  { baseDb with visits := [mkVisit 1 1 none none 100 10] }

/-- A store with one `IN_PROGRESS` visit (id 10) of visitor 1 AND one pending
appointment (id 1) of staff 1. -/
def c10Db : Db :=
  { baseDb with
    appointments := [mkAppointment 1 1 0 36000000 30 Priority.NORMAL 1],
    visits := [mkVisit 1 1 none none 100 10] }

/-- A store with one appointment (id 1, start time 0) and one same-day
`COMPLETED` visit linked to it, checked in 15 minutes after the appointment's
start and checked out 15 minutes later. -/
def c7Db : Db :=
  { baseDb with
    appointments := [mkAppointment 1 1 0 0 30 Priority.NORMAL 1],
    visits := [{ id := 10, visitorId := 1, userId := 1, appointmentId := some 1,
                 checkInTime := 900000, checkOutTime := some 1800000,
                 status := VisitStatus.COMPLETED, notes := none, satisfaction := none }] }

/-- A store whose only appointment for staff 1 on date 0 is CANCELLED and
covers 9:00-9:30 (32400000-34200000 ms). -/
def c3Db : Db :=
  { baseDb with appointments :=
      [{ id := 1, visitorId := 1, userId := 1, scheduledDate := 0,
         startTime := 32400000, endTime := 34200000, duration := 30,
         status := AppointmentStatus.CANCELLED, priority := Priority.NORMAL }] }

/-- A store with one `COMPLETED` visit (id 10) of visitor 1, checked out at 200. -/
def c8Db : Db :=
  { baseDb with visits := [{ id := 10, visitorId := 1, userId := 1, appointmentId := none,
                             checkInTime := 100, checkOutTime := some 200,
                             status := VisitStatus.COMPLETED, notes := none,
                             satisfaction := none }] }

/-- An OPEN issue with no `resolvedDate`. -/
def c9Issue0 : Issue := { id := 1, status := IssueStatus.OPEN, resolvedDate := none }

/-- `c9Issue0` after a `PUT` patch carrying only `resolvedDate = 5`: an OPEN
issue with a stored `resolvedDate`. -/
def c9Issue1 : Issue := applyIssuePatch c9Issue0 { resolvedDate := some (some 5) } 3

/-- Stated from the spec's words, for comparison with the code's three-branch
test: half-open interval overlap of `[aStart, aEnd)` and `[s, e)`. -/
def specOverlap (aStart aEnd s e : Int) : Bool :=
  aStart < e && s < aEnd

/-- Stated from the spec's words: some existing appointment of the same staff
user on the same date, with status not in {CANCELLED, NO_SHOW}, overlaps the
requested half-open interval. -/
def specConflictExists (db : Db) (userId : Id) (d : Int) (s e : Int) : Bool :=
  db.appointments.any (fun a =>
    a.userId == userId && a.scheduledDate == d && liveStatus a.status &&
      specOverlap a.startTime a.endTime s e)

/-- The code's three-branch test agrees with half-open overlap on nonempty
intervals. -/
theorem overlapTest_eq_specOverlap (a : Appointment) (s e : Int)
    (hse : s < e) (ha : a.startTime < a.endTime) :
    overlapTest a s e = specOverlap a.startTime a.endTime s e := by
  rw [Bool.eq_iff_iff]
  simp only [overlapTest, specOverlap, Bool.or_eq_true, Bool.and_eq_true,
    decide_eq_true_eq]
  constructor
  · rintro ((⟨h1, h2⟩ | ⟨h1, h2⟩) | ⟨h1, h2⟩) <;> exact ⟨by omega, by omega⟩
  · rintro ⟨h1, h2⟩
    by_cases hc : a.startTime ≤ s
    · left; left; exact ⟨hc, by omega⟩
    · by_cases hd : a.endTime ≤ e
      · right; exact ⟨by omega, hd⟩
      · left; right; exact ⟨h1, by omega⟩

/-- The conflict query finds a row exactly when a spec-level conflict exists,
given nonempty intervals. -/
theorem conflictsWith_length_pos (db : Db) (userId : Id) (d : Int) (s e : Int)
    (hse : s < e) (hwf : ∀ a ∈ db.appointments, a.startTime < a.endTime) :
    ((conflictsWith db userId d s e).length > 0) =
      (specConflictExists db userId d s e = true) := by
  simp only [conflictsWith, specConflictExists, eq_iff_iff, gt_iff_lt]
  rw [List.length_pos, Ne, List.filter_eq_nil_iff, List.any_eq_true]
  push_neg
  constructor
  · rintro ⟨a, ha, hp⟩
    refine ⟨a, ha, ?_⟩
    rw [← overlapTest_eq_specOverlap a s e hse (hwf a ha)]
    simpa using hp
  · rintro ⟨a, ha, hp⟩
    refine ⟨a, ha, ?_⟩
    rw [← overlapTest_eq_specOverlap a s e hse (hwf a ha)] at hp
    exact hp

/-- C1: scheduling rejects with 409 and leaves the store unchanged exactly when
some live same-staff same-date appointment overlaps the requested half-open
interval; with no such overlap (in particular an exactly adjacent appointment)
and resolvable visitor and staff references, the request succeeds and appends
the new appointment. -/
theorem c1_schedule_conflict (db : Db) (visitorId userId : Id) (d s : Int)
    (duration : Nat) (priority : Priority) (newId : Id)
    (hdur : 0 < duration)
    (hwf : ∀ a ∈ db.appointments, a.startTime < a.endTime) :
    (specConflictExists db userId d s (s + (duration : Int) * 60000) = true →
      createAppointment db visitorId userId d s duration priority newId =
        (ApiResult.failure 409, db)) ∧
    (specConflictExists db userId d s (s + (duration : Int) * 60000) = false →
      (findVisitor db visitorId).isNone = false →
      userExists db userId = true →
      createAppointment db visitorId userId d s duration priority newId =
        (ApiResult.okCreated newId,
         { db with appointments :=
             db.appointments ++ [mkAppointment visitorId userId d s duration priority newId] })) := by
  have hse : s < s + (duration : Int) * 60000 := by omega
  have hkey := conflictsWith_length_pos db userId d s (s + (duration : Int) * 60000) hse hwf
  constructor
  · intro hspec
    have hc : (conflictsWith db userId d s (s + (duration : Int) * 60000)).length > 0 := by
      rw [hkey]; exact hspec
    simp [createAppointment, hc]
  · intro hspec hvis huser
    have hc : ¬ (conflictsWith db userId d s (s + (duration : Int) * 60000)).length > 0 := by
      rw [hkey, hspec]; simp
    simp [createAppointment, hc, hvis, huser]

/-- C1 witness: the spec scenario at staff 1, date 0.  With 10:00-10:30
booked, scheduling 10:15 for 30 min fails 409 without creating a record, and
scheduling 10:30 for 30 min (exactly adjacent) succeeds. -/
theorem c1_schedule_conflict_witness :
    createAppointment c1Db 1 1 0 36900000 30 Priority.NORMAL 2 =
      (ApiResult.failure 409, c1Db) ∧
    createAppointment c1Db 1 1 0 37800000 30 Priority.NORMAL 2 =
      (ApiResult.okCreated 2,
       { c1Db with appointments :=
           c1Db.appointments ++ [mkAppointment 1 1 0 37800000 30 Priority.NORMAL 2] }) := by
  constructor
  · exact (c1_schedule_conflict c1Db 1 1 0 36900000 30 Priority.NORMAL 2
      (by decide) (by decide)).1 (by decide)
  · exact (c1_schedule_conflict c1Db 1 1 0 37800000 30 Priority.NORMAL 2
      (by decide) (by decide)).2 (by decide) (by decide) (by decide)

/-- C3 counterexample: on `c3Db` the only appointment of staff 1 on date 0 is
CANCELLED and covers 9:00-9:30, so the spec-side rule declares the 9:00 slot
available, yet the handler's slot loop (which applies no status filter) drops
it. -/
theorem c3_cancelled_blocks_slot :
    c3Db.appointments.map (fun a => a.status) = [AppointmentStatus.CANCELLED] ∧
    specSlotAvailable c3Db 1 0 32400000 34200000 = true ∧
    ((32400000 : Int), (34200000 : Int)) ∈
      slotOffsets.map (fun m => ((0 : Int) + (m : Int) * 60000, (0 : Int) + (m : Int) * 60000 + 1800000)) ∧
    ((32400000 : Int), (34200000 : Int)) ∉ availableSlotsForDay 0 (dayAppointments c3Db 1 0) := by
  exact ⟨by decide, by decide, by decide, by decide⟩

/-- C3 as amended: a working-hours slot is reported free iff it does not
overlap ANY fetched appointment of that staff member on that date, regardless
of the appointment's status. -/
theorem c3_slot_available_iff (dateBase : Int) (apts : List Appointment) (s e : Int) :
    (s, e) ∈ availableSlotsForDay dateBase apts ↔
      ((s, e) ∈ slotOffsets.map
          (fun m => (dateBase + (m : Int) * 60000, dateBase + (m : Int) * 60000 + 1800000)) ∧
       ∀ a ∈ apts, ¬(s < a.endTime ∧ e > a.startTime)) := by
  unfold availableSlotsForDay
  rw [List.mem_filter]
  simp only [slotAvailable, Bool.not_eq_true', List.any_eq_false, Bool.and_eq_true,
    decide_eq_true_eq, not_and]

/-- C6: the queue view is the fetched set of `IN_PROGRESS` visits (optionally
staff-filtered) rearranged — a permutation, nothing persisted — into an order
sorted by linked-appointment priority descending (`NORMAL` when no appointment
is linked) with check-in time ascending as tie-break. -/
theorem c6_queue_ordering (db : Db) (uid : Option Id) :
    (sortedActiveVisits db uid).Perm (activeVisits db uid) ∧
    List.Sorted queueRel (sortedActiveVisits db uid) :=
  ⟨List.perm_insertionSort queueRel (activeVisits db uid),
   List.sorted_insertionSort queueRel (activeVisits db uid)⟩

/-- The wait-time fold returns its accumulator whenever every row lacks an
appointment. -/
theorem foldl_wait_const (g : Visit → QueueVisit) (hg : ∀ w, (g w).appointment = none) :
    ∀ (l : List Visit) (init : Int),
      (l.map g).foldl (fun sum v =>
        match v.appointment with
        | some a => sum + (v.checkInTime - a.startTime)
        | none => sum) init = init := by
  intro l
  induction l with
  | nil => intro init; rfl
  | cons x l ih =>
    intro init
    simp only [List.map_cons, List.foldl_cons, hg x]
    exact ih init

/-- C7: because the completed-today query does not `include` the appointment
relation, the wait-time fold is dead code and the reported average wait time is
0 in EVERY state; on `c7Db` (one same-day completed visit checked in 15 minutes
after its linked appointment's start) the spec-side value is 15 minutes. -/
theorem c7_average_wait_dead :
    (∀ (db : Db) (todayStart : Int) (uid : Option Id),
        averageWaitTime (completedVisitsToday db todayStart uid) = 0) ∧
    specAverageWaitTime c7Db 0 none = 15 := by
  constructor
  · intro db t uid
    have hz : totalWaitTime (completedVisitsToday db t uid) = 0 := by
      unfold completedVisitsToday totalWaitTime
      exact foldl_wait_const _ (fun w => rfl) _ 0
    unfold averageWaitTime
    rw [hz]
    split <;> simp
  · norm_num [specAverageWaitTime, specCompletedToday, c7Db, baseDb, userFilter,
      findAppointment, mkAppointment, List.filter, List.foldl, List.find?, Option.bind]

/-- A keyed `update` (map with an id-guarded transformer) rewrites exactly the
row `find?` locates, provided the transformer preserves the key. -/
theorem find?_update_of_find? {α : Type} (key : α → Id) (k : Id) (f : α → α)
    (hf : ∀ x, key (f x) = key x) :
    ∀ (l : List α) (v : α), l.find? (fun x => key x == k) = some v →
      (l.map (fun x => if key x == k then f x else x)).find? (fun x => key x == k) =
        some (f v) := by
  intro l
  induction l with
  | nil => intro v h; simp at h
  | cons x l ih =>
    intro v h
    cases hx : key x == k with
    | true =>
      simp only [List.find?, hx] at h
      obtain rfl : x = v := by injection h
      simp [List.find?, List.map_cons, hx, hf]
    | false =>
      simp only [List.find?, hx] at h
      simp only [List.map_cons, hx, Bool.false_eq_true, if_false, List.find?]
      exact ih v h

/-- C10: with the visitor, staff user and appointment all resolvable and the
visitor already holding an active visit, `POST /api/visits` answers 409 and
creates no visit, yet leaves the referenced appointment marked `COMPLETED`
(the appointment update runs before the duplicate-active-visit check), while
the queue-action check-in answers 409 with the store fully unchanged. -/
theorem c10_visits_checkin_mutates_before_conflict (db : Db) (visitorId userId aid : Id)
    (notes : Option String) (now : Int) (newVisitId : Id) (a : Appointment)
    (hvis : (findVisitor db visitorId).isNone = false)
    (huser : userExists db userId = true)
    (hfind : findAppointment db aid = some a)
    (hact : hasActiveVisit db visitorId = true) :
    createVisit db visitorId userId (some aid) notes now newVisitId =
      (ApiResult.failure 409, setAppointmentStatus db aid AppointmentStatus.COMPLETED) ∧
    findAppointment (setAppointmentStatus db aid AppointmentStatus.COMPLETED) aid =
      some { a with status := AppointmentStatus.COMPLETED } ∧
    (setAppointmentStatus db aid AppointmentStatus.COMPLETED).visits = db.visits ∧
    checkInVisitor db visitorId userId (some aid) notes now newVisitId =
      (ApiResult.failure 409, db) := by
  have hfn : (findAppointment db aid).isNone = false := by rw [hfind]; rfl
  have hact1 : hasActiveVisit (setAppointmentStatus db aid AppointmentStatus.COMPLETED)
      visitorId = true := hact
  refine ⟨?_, ?_, rfl, ?_⟩
  · simp [createVisit, hvis, huser, hfn, hact1]
  · exact find?_update_of_find? Appointment.id aid
      (fun x => { x with status := AppointmentStatus.COMPLETED }) (fun x => rfl)
      db.appointments a hfind
  · simp [checkInVisitor, hvis, huser, hact]

/-- C10 witness: on `c10Db` (visitor 1 active in visit 10, appointment 1
pending), the `POST /api/visits` duplicate check-in leaves appointment 1
`COMPLETED` behind its 409 while the queue action changes nothing. -/
theorem c10_witness :
    createVisit c10Db 1 1 (some 1) none 500 11 =
      (ApiResult.failure 409, setAppointmentStatus c10Db 1 AppointmentStatus.COMPLETED) ∧
    findAppointment (setAppointmentStatus c10Db 1 AppointmentStatus.COMPLETED) 1 =
      some { mkAppointment 1 1 0 36000000 30 Priority.NORMAL 1 with
             status := AppointmentStatus.COMPLETED } ∧
    (setAppointmentStatus c10Db 1 AppointmentStatus.COMPLETED).visits = c10Db.visits ∧
    checkInVisitor c10Db 1 1 (some 1) none 500 11 = (ApiResult.failure 409, c10Db) :=
  c10_visits_checkin_mutates_before_conflict c10Db 1 1 1 none 500 11
    (mkAppointment 1 1 0 36000000 30 Priority.NORMAL 1)
    (by decide) (by decide) (by decide) (by decide)

/-- C4: a check-in for a visitor who already has an `IN_PROGRESS` visit fails
with 409 through either entry point, inserts no visit row, and leaves every
visitor row (in particular `visitCount`) unchanged. -/
theorem c4_second_checkin_rejected (db : Db) (visitorId userId : Id)
    (appointmentId : Option Id) (notes : Option String) (now : Int) (newVisitId : Id)
    (hvis : (findVisitor db visitorId).isNone = false)
    (huser : userExists db userId = true)
    (hact : hasActiveVisit db visitorId = true)
    (happt : ∀ aid, appointmentId = some aid → (findAppointment db aid).isNone = false) :
    ((createVisit db visitorId userId appointmentId notes now newVisitId).1 =
        ApiResult.failure 409 ∧
     (createVisit db visitorId userId appointmentId notes now newVisitId).2.visits =
        db.visits ∧
     (createVisit db visitorId userId appointmentId notes now newVisitId).2.visitors =
        db.visitors) ∧
    checkInVisitor db visitorId userId appointmentId notes now newVisitId =
      (ApiResult.failure 409, db) := by
  constructor
  · cases appointmentId with
    | some aid =>
        have hfn := happt aid rfl
        have hact1 : hasActiveVisit (setAppointmentStatus db aid AppointmentStatus.COMPLETED)
            visitorId = true := hact
        have hstep : createVisit db visitorId userId (some aid) notes now newVisitId =
            (ApiResult.failure 409, setAppointmentStatus db aid AppointmentStatus.COMPLETED) := by
          simp [createVisit, hvis, huser, hfn, hact1]
        exact ⟨by rw [hstep], by rw [hstep]; rfl, by rw [hstep]; rfl⟩
    | none =>
        refine ⟨?_, ?_, ?_⟩ <;> simp [createVisit, hvis, huser, hact]
  · simp [checkInVisitor, hvis, huser, hact]

/-- C4 witness: the scenario on `c5Db` — visitor 1 is active in visit 10, a
second walk-in check-in fails 409 through both entry points without a new
visit row and with visitors untouched. -/
theorem c4_witness :
    ((createVisit c5Db 1 1 none none 500 11).1 = ApiResult.failure 409 ∧
     (createVisit c5Db 1 1 none none 500 11).2.visits = c5Db.visits ∧
     (createVisit c5Db 1 1 none none 500 11).2.visitors = c5Db.visitors) ∧
    checkInVisitor c5Db 1 1 none none 500 11 = (ApiResult.failure 409, c5Db) :=
  c4_second_checkin_rejected c5Db 1 1 none none 500 11
    (by decide) (by decide) (by decide) (fun aid h => Option.noConfusion h)

/-- C5: checkout answers 404 on a missing visit and 400 (invalid state) on a
visit that is not `IN_PROGRESS`, leaving the store unchanged; after a
successful checkout the visit is `COMPLETED` with `checkOutTime = now`, so a
second checkout answers 400 and changes nothing — `checkOutTime` keeps the
first call's stamp. -/
theorem c5_checkout_guards (db : Db) (visitId : Id) (notes : Option String)
    (sat : Option (Option Nat)) (now t2 : Int) (n2 : Option String)
    (s2 : Option (Option Nat)) :
    (findVisit db visitId = none →
      checkOutVisitor db visitId notes sat now = (ApiResult.failure 404, db)) ∧
    (∀ w, findVisit db visitId = some w → w.status ≠ VisitStatus.IN_PROGRESS →
      checkOutVisitor db visitId notes sat now = (ApiResult.failure 400, db)) ∧
    (∀ w, findVisit db visitId = some w → w.status = VisitStatus.IN_PROGRESS →
      findVisit (checkOutVisitor db visitId notes sat now).2 visitId =
        some (checkoutXform notes sat now w) ∧
      (checkoutXform notes sat now w).status = VisitStatus.COMPLETED ∧
      (checkoutXform notes sat now w).checkOutTime = some now ∧
      checkOutVisitor (checkOutVisitor db visitId notes sat now).2 visitId n2 s2 t2 =
        (ApiResult.failure 400, (checkOutVisitor db visitId notes sat now).2)) := by
  refine ⟨?_, ?_, ?_⟩
  · intro h
    simp [checkOutVisitor, h]
  · intro w hw hst
    simp [checkOutVisitor, hw, hst]
  · intro w hw hst
    have hupd := find?_update_of_find? Visit.id visitId (checkoutXform notes sat now)
      (fun x => rfl) db.visits w hw
    cases hA : w.appointmentId with
    | none =>
      have hstep : checkOutVisitor db visitId notes sat now =
          (ApiResult.ok, updateVisitRow db visitId (checkoutXform notes sat now)) := by
        simp [checkOutVisitor, hw, hst, hA]
      rw [hstep]
      have hfind2 : findVisit (updateVisitRow db visitId (checkoutXform notes sat now))
          visitId = some (checkoutXform notes sat now w) := hupd
      exact ⟨hfind2, rfl, rfl, by simp [checkOutVisitor, hfind2, checkoutXform]⟩
    | some aid =>
      have hstep : checkOutVisitor db visitId notes sat now =
          (ApiResult.ok, setAppointmentStatus
            (updateVisitRow db visitId (checkoutXform notes sat now))
            aid AppointmentStatus.COMPLETED) := by
        simp [checkOutVisitor, hw, hst, hA]
      rw [hstep]
      have hfind2 : findVisit (setAppointmentStatus
          (updateVisitRow db visitId (checkoutXform notes sat now))
          aid AppointmentStatus.COMPLETED) visitId = some (checkoutXform notes sat now w) :=
        hupd
      exact ⟨hfind2, rfl, rfl, by simp [checkOutVisitor, hfind2, checkoutXform]⟩

/-- C5 witness: on `c5Db`, checkout of a missing visit answers 404; on `c8Db`,
checkout of the already-`COMPLETED` visit 10 answers 400 unchanged; checking
out the active visit 10 of `c5Db` stamps `checkOutTime = 500`, and a second
checkout answers 400 leaving that stamp in place. -/
theorem c5_checkout_guards_witness :
    checkOutVisitor c5Db 99 none none 500 = (ApiResult.failure 404, c5Db) ∧
    checkOutVisitor c8Db 10 none none 500 = (ApiResult.failure 400, c8Db) ∧
    findVisit (checkOutVisitor c5Db 10 none none 500).2 10 =
      some (checkoutXform none none 500 (mkVisit 1 1 none none 100 10)) ∧
    (checkoutXform none none 500 (mkVisit 1 1 none none 100 10)).checkOutTime = some 500 ∧
    checkOutVisitor (checkOutVisitor c5Db 10 none none 500).2 10 none none 600 =
      (ApiResult.failure 400, (checkOutVisitor c5Db 10 none none 500).2) := by
  refine ⟨?_, ?_, ?_, ?_, ?_⟩
  · exact (c5_checkout_guards c5Db 99 none none 500 600 none none).1 (by decide)
  · exact (c5_checkout_guards c8Db 10 none none 500 600 none none).2.1
      { id := 10, visitorId := 1, userId := 1, appointmentId := none, checkInTime := 100,
        checkOutTime := some 200, status := VisitStatus.COMPLETED, notes := none,
        satisfaction := none } (by decide) (by decide)
  · exact ((c5_checkout_guards c5Db 10 none none 500 600 none none).2.2
      (mkVisit 1 1 none none 100 10) (by decide) rfl).1
  · exact ((c5_checkout_guards c5Db 10 none none 500 600 none none).2.2
      (mkVisit 1 1 none none 100 10) (by decide) rfl).2.2.1
  · exact ((c5_checkout_guards c5Db 10 none none 500 600 none none).2.2
      (mkVisit 1 1 none none 100 10) (by decide) rfl).2.2.2

/-- C8 counterexample: `c8Db` holds the `COMPLETED` visit 10, and a
`PUT /api/visits/10` with `{ status: IN_PROGRESS }` succeeds and moves it back
to `IN_PROGRESS` — `COMPLETED` is not terminal under the status-update route. -/
theorem c8_completed_not_terminal :
    findVisit c8Db 10 = some
      { id := 10, visitorId := 1, userId := 1, appointmentId := none, checkInTime := 100,
        checkOutTime := some 200, status := VisitStatus.COMPLETED, notes := none,
        satisfaction := none } ∧
    (updateVisit c8Db 10 { status := some VisitStatus.IN_PROGRESS } 300).1 = ApiResult.ok ∧
    findVisit (updateVisit c8Db 10 { status := some VisitStatus.IN_PROGRESS } 300).2 10 =
      some { id := 10, visitorId := 1, userId := 1, appointmentId := none, checkInTime := 100,
             checkOutTime := some 200, status := VisitStatus.IN_PROGRESS, notes := none,
             satisfaction := none } :=
  ⟨by decide, by decide, by decide⟩

/-- C8 as amended: `IN_PROGRESS` is the sole initial state — either check-in
entry point leaves the visit table unchanged or appends one `IN_PROGRESS` row —
and `COMPLETED`/`CANCELLED` are terminal under checkout and cancel, which
answer 400 and change nothing on any non-active visit; only the unguarded
`PUT /api/visits/[id]` status patch can leave those states. -/
theorem c8_visit_lifecycle (db : Db) :
    (∀ (v u : Id) (a : Option Id) (n : Option String) (t : Int) (i : Id),
       (createVisit db v u a n t i).2.visits = db.visits ∨
       (createVisit db v u a n t i).2.visits = db.visits ++ [mkVisit v u a n t i]) ∧
    (∀ (v u : Id) (a : Option Id) (n : Option String) (t : Int) (i : Id),
       (checkInVisitor db v u a n t i).2.visits = db.visits ∨
       (checkInVisitor db v u a n t i).2.visits = db.visits ++ [mkVisit v u a n t i]) ∧
    (∀ (v u : Id) (a : Option Id) (n : Option String) (t : Int) (i : Id),
       (mkVisit v u a n t i).status = VisitStatus.IN_PROGRESS) ∧
    (∀ (wid : Id) (n : Option String) (sp : Option (Option Nat)) (t : Int) (w : Visit),
       findVisit db wid = some w →
       w.status = VisitStatus.COMPLETED ∨ w.status = VisitStatus.CANCELLED →
       checkOutVisitor db wid n sp t = (ApiResult.failure 400, db) ∧
       cancelVisit db wid n t = (ApiResult.failure 400, db)) := by
  refine ⟨?_, ?_, fun v u a n t i => rfl, ?_⟩
  · intro v u a n t i
    cases a with
    | none =>
      simp only [createVisit]
      split
      · exact Or.inl rfl
      · split
        · exact Or.inl rfl
        · split
          · exact Or.inl rfl
          · exact Or.inr rfl
    | some aid =>
      simp only [createVisit]
      split
      · exact Or.inl rfl
      · split
        · exact Or.inl rfl
        · split
          · exact Or.inl rfl
          · split
            · exact Or.inl rfl
            · exact Or.inr rfl
  · intro v u a n t i
    cases a with
    | none =>
      simp only [checkInVisitor]
      split
      · exact Or.inl rfl
      · split
        · exact Or.inl rfl
        · split
          · exact Or.inl rfl
          · exact Or.inr rfl
    | some aid =>
      simp only [checkInVisitor]
      split
      · exact Or.inl rfl
      · split
        · exact Or.inl rfl
        · split
          · exact Or.inl rfl
          · split
            · exact Or.inl rfl
            · exact Or.inr rfl
  · intro wid n sp t w hw hdone
    rcases hdone with h | h <;>
      exact ⟨by simp [checkOutVisitor, hw, h], by simp [cancelVisit, hw, h]⟩

/-- C8 witness: on `c8Db`, a fresh check-in appends one `IN_PROGRESS` row or
nothing, and both checkout and cancel reject the `COMPLETED` visit 10 with 400,
leaving the store unchanged. -/
theorem c8_visit_lifecycle_witness :
    ((createVisit c8Db 1 1 none none 500 11).2.visits = c8Db.visits ∨
     (createVisit c8Db 1 1 none none 500 11).2.visits = c8Db.visits ++ [mkVisit 1 1 none none 500 11]) ∧
    checkOutVisitor c8Db 10 none none 500 = (ApiResult.failure 400, c8Db) ∧
    cancelVisit c8Db 10 none 500 = (ApiResult.failure 400, c8Db) := by
  refine ⟨(c8_visit_lifecycle c8Db).1 1 1 none none 500 11, ?_, ?_⟩
  · exact ((c8_visit_lifecycle c8Db).2.2.2 10 none none 500
      { id := 10, visitorId := 1, userId := 1, appointmentId := none, checkInTime := 100,
        checkOutTime := some 200, status := VisitStatus.COMPLETED, notes := none,
        satisfaction := none } (by decide) (Or.inl rfl)).1
  · exact ((c8_visit_lifecycle c8Db).2.2.2 10 none none 500
      { id := 10, visitorId := 1, userId := 1, appointmentId := none, checkInTime := 100,
        checkOutTime := some 200, status := VisitStatus.COMPLETED, notes := none,
        satisfaction := none } (by decide) (Or.inl rfl)).2

/-- C9 counterexample: `c9Issue1` is an OPEN issue that carries
`resolvedDate = 5` (reachable by patching `resolvedDate` directly); a `PUT`
with `{ status: OPEN }` does not change the status, yet the handler clears
`resolvedDate` to null because it keys on the patch's status value rather than
on an actual transition. -/
theorem c9_same_status_clears_resolved :
    c9Issue1 = applyIssuePatch c9Issue0 { resolvedDate := some (some 5) } 3 ∧
    c9Issue1.status = IssueStatus.OPEN ∧
    c9Issue1.resolvedDate = some 5 ∧
    (applyIssuePatch c9Issue1 { status := some IssueStatus.OPEN } 9).status =
      IssueStatus.OPEN ∧
    (applyIssuePatch c9Issue1 { status := some IssueStatus.OPEN } 9).resolvedDate = none :=
  ⟨rfl, by decide, by decide, by decide, by decide⟩

/-- C9 as amended: a patch whose `status` is RESOLVED or CLOSED stamps
`resolvedDate = now` when it is unset and keeps the stored value otherwise
(absent an explicit `resolvedDate` in the patch); a patch carrying ANY other
status clears `resolvedDate` to null, even when that status equals the issue's
current one; a patch with neither `status` nor `resolvedDate` leaves
`resolvedDate` unchanged. -/
theorem c9_resolved_date_rule (existing : Issue) (p : IssuePatch) (now : Int) :
    (∀ s, p.status = some s → isResolvedOrClosed s = true →
      existing.resolvedDate = none →
      (applyIssuePatch existing p now).resolvedDate = some now) ∧
    (∀ s d, p.status = some s → isResolvedOrClosed s = true →
      existing.resolvedDate = some d → p.resolvedDate = none →
      (applyIssuePatch existing p now).resolvedDate = some d) ∧
    (∀ s, p.status = some s → isResolvedOrClosed s = false →
      (applyIssuePatch existing p now).resolvedDate = none) ∧
    (p.status = none → p.resolvedDate = none →
      (applyIssuePatch existing p now).resolvedDate = existing.resolvedDate) := by
  refine ⟨?_, ?_, ?_, ?_⟩
  · intro s hs hrc hnone
    simp [applyIssuePatch, resolvedDateField, hs, hrc, hnone]
  · intro s d hs hrc hsome hpr
    simp [applyIssuePatch, resolvedDateField, hs, hrc, hsome, hpr]
  · intro s hs hrc
    simp [applyIssuePatch, resolvedDateField, hs, hrc]
  · intro h hpr
    simp [applyIssuePatch, resolvedDateField, h, hpr]

/-- C9 witness: first transition of `c9Issue0` to RESOLVED stamps
`resolvedDate = 7`; a CLOSED patch on an already-stamped issue keeps the
stamp; a non-resolved status patch clears it; an empty patch changes
nothing. -/
theorem c9_resolved_date_rule_witness :
    (applyIssuePatch c9Issue0 { status := some IssueStatus.RESOLVED } 7).resolvedDate =
      some 7 ∧
    (applyIssuePatch { id := 1, status := IssueStatus.RESOLVED, resolvedDate := some 5 }
        { status := some IssueStatus.CLOSED } 7).resolvedDate = some 5 ∧
    (applyIssuePatch c9Issue1 { status := some IssueStatus.IN_PROGRESS } 7).resolvedDate =
      none ∧
    (applyIssuePatch c9Issue1 {} 7).resolvedDate = c9Issue1.resolvedDate := by
  refine ⟨?_, ?_, ?_, ?_⟩
  · exact (c9_resolved_date_rule c9Issue0 { status := some IssueStatus.RESOLVED } 7).1
      IssueStatus.RESOLVED rfl (by decide) (by decide)
  · exact (c9_resolved_date_rule
      { id := 1, status := IssueStatus.RESOLVED, resolvedDate := some 5 }
      { status := some IssueStatus.CLOSED } 7).2.1
      IssueStatus.CLOSED 5 rfl (by decide) (by decide) rfl
  · exact (c9_resolved_date_rule c9Issue1 { status := some IssueStatus.IN_PROGRESS } 7).2.2.1
      IssueStatus.IN_PROGRESS rfl (by decide)
  · exact (c9_resolved_date_rule c9Issue1 {} 7).2.2.2 rfl rfl

/-- C2 counterexample: from `baseDb`, check-in (visit 10), checkout, and a
second check-in (visit 11) all succeed; a `PUT /api/visits/10` with
`{ status: IN_PROGRESS }` then re-opens the closed visit, leaving visitor 1
with TWO `IN_PROGRESS` visits — the status-update route breaks the claimed
invariant. -/
theorem c2_put_breaks_invariant :
    (checkInVisitor baseDb 1 1 none none 100 10).1 = ApiResult.okCreated 10 ∧
    (checkOutVisitor c2Db1 10 none none 200).1 = ApiResult.ok ∧
    (checkInVisitor c2Db2 1 1 none none 300 11).1 = ApiResult.okCreated 11 ∧
    (updateVisit c2Db3 10 { status := some VisitStatus.IN_PROGRESS } 400).1 =
      ApiResult.ok ∧
    activeVisitsCount c2Db4 1 = 2 ∧
    ¬ AtMostOneActive c2Db4 := by
  refine ⟨by decide, by decide, by decide, by decide, by decide,
    fun h => absurd (h 1) (by decide)⟩

/-- A store whose duplicate-active guard reports no active visit of `v` counts
zero `IN_PROGRESS` visits of `v`. -/
theorem activeVisitsCount_eq_zero (db : Db) (v : Id)
    (h : hasActiveVisit db v = false) : activeVisitsCount db v = 0 := by
  unfold hasActiveVisit at h
  rw [List.any_eq_false] at h
  unfold activeVisitsCount
  rw [List.countP_eq_zero]
  exact h

/-- States with the same visit table satisfy the invariant together. -/
theorem atMostOneActive_of_visits_eq (X Y : Db) (h : X.visits = Y.visits)
    (hy : AtMostOneActive Y) : AtMostOneActive X := by
  intro vid
  unfold activeVisitsCount
  rw [h]
  exact hy vid

/-- Appending one fresh `IN_PROGRESS` visit of `v` to a store with no active
visit of `v` keeps every count at most one. -/
theorem atMostOneActive_append (db X : Db) (v u : Id) (a : Option Id)
    (n : Option String) (t : Int) (i : Id)
    (hX : X.visits = db.visits ++ [mkVisit v u a n t i])
    (hact : hasActiveVisit db v = false)
    (h : AtMostOneActive db) : AtMostOneActive X := by
  intro vid
  unfold activeVisitsCount
  rw [hX, List.countP_append]
  by_cases hv : v = vid
  · subst hv
    have h0 := activeVisitsCount_eq_zero db v hact
    unfold activeVisitsCount at h0
    rw [h0]
    simp [mkVisit, List.countP_cons]
  · have hx : List.countP
        (fun w => w.visitorId == vid && w.status == VisitStatus.IN_PROGRESS)
        [mkVisit v u a n t i] = 0 := by
      simp [mkVisit, List.countP_cons, hv]
    rw [hx]
    have hvv := h vid
    unfold activeVisitsCount at hvv
    omega

/-- `POST /api/visits` preserves the at-most-one-active invariant. -/
theorem createVisit_preserves (db : Db) (v u : Id) (a : Option Id)
    (n : Option String) (t : Int) (i : Id) (h : AtMostOneActive db) :
    AtMostOneActive (createVisit db v u a n t i).2 := by
  cases a with
  | none =>
    simp only [createVisit]
    split
    · exact h
    · split
      · exact h
      · split
        · exact h
        · next hcond =>
            refine atMostOneActive_append db _ v u none n t i rfl ?_ h
            simpa using hcond
  | some aid =>
    simp only [createVisit]
    split
    · exact h
    · split
      · exact h
      · split
        · exact h
        · split
          · exact atMostOneActive_of_visits_eq _ db rfl h
          · next hcond =>
              refine atMostOneActive_append db _ v u (some aid) n t i rfl ?_ h
              simpa using hcond

/-- The queue-action check-in preserves the at-most-one-active invariant. -/
theorem checkInVisitor_preserves (db : Db) (v u : Id) (a : Option Id)
    (n : Option String) (t : Int) (i : Id) (h : AtMostOneActive db) :
    AtMostOneActive (checkInVisitor db v u a n t i).2 := by
  cases h1 : (findVisitor db v).isNone with
  | true =>
    have hstep : checkInVisitor db v u a n t i = (ApiResult.failure 404, db) := by
      simp [checkInVisitor, h1]
    rw [hstep]; exact h
  | false =>
    cases h2 : userExists db u with
    | false =>
      have hstep : checkInVisitor db v u a n t i = (ApiResult.failure 404, db) := by
        simp [checkInVisitor, h1, h2]
      rw [hstep]; exact h
    | true =>
      cases h3 : hasActiveVisit db v with
      | true =>
        have hstep : checkInVisitor db v u a n t i = (ApiResult.failure 409, db) := by
          simp [checkInVisitor, h1, h2, h3]
        rw [hstep]; exact h
      | false =>
        cases a with
        | none =>
          have hstep : checkInVisitor db v u none n t i =
              insertVisit db v u none n t i := by
            simp [checkInVisitor, h1, h2, h3]
          rw [hstep]
          exact atMostOneActive_append db _ v u none n t i rfl h3 h
        | some aid =>
          cases h4 : (findAppointment db aid).isNone with
          | true =>
            have hstep : checkInVisitor db v u (some aid) n t i =
                (ApiResult.failure 404, db) := by
              simp [checkInVisitor, h1, h2, h3, h4]
            rw [hstep]; exact h
          | false =>
            have hstep : checkInVisitor db v u (some aid) n t i =
                insertVisit (setAppointmentStatus db aid AppointmentStatus.CONFIRMED)
                  v u (some aid) n t i := by
              simp [checkInVisitor, h1, h2, h3, h4]
            rw [hstep]
            exact atMostOneActive_append db _ v u (some aid) n t i rfl h3 h

/-- A keyed row update whose transformer never yields `IN_PROGRESS` cannot
increase any visitor's active count. -/
theorem count_updateVisitRow_le (db : Db) (wid : Id) (f : Visit → Visit)
    (hfs : ∀ w, (f w).status ≠ VisitStatus.IN_PROGRESS) (vid : Id) :
    activeVisitsCount (updateVisitRow db wid f) vid ≤ activeVisitsCount db vid := by
  unfold activeVisitsCount updateVisitRow
  rw [List.countP_map]
  refine List.countP_mono_left ?_
  intro w hw hpw
  simp only [Function.comp_apply] at hpw
  split at hpw
  · exfalso
    simp only [Bool.and_eq_true, beq_iff_eq] at hpw
    exact hfs w hpw.2
  · exact hpw

/-- Checkout preserves the at-most-one-active invariant. -/
theorem checkOutVisitor_preserves (db : Db) (wid : Id) (n : Option String)
    (sp : Option (Option Nat)) (t : Int) (h : AtMostOneActive db) :
    AtMostOneActive (checkOutVisitor db wid n sp t).2 := by
  cases hw : findVisit db wid with
  | none =>
    have hstep : checkOutVisitor db wid n sp t = (ApiResult.failure 404, db) := by
      simp [checkOutVisitor, hw]
    rw [hstep]; exact h
  | some visit =>
    cases hst : visit.status != VisitStatus.IN_PROGRESS with
    | true =>
      have hstep : checkOutVisitor db wid n sp t = (ApiResult.failure 400, db) := by
        simp [checkOutVisitor, hw, hst]
      rw [hstep]; exact h
    | false =>
      cases hA : visit.appointmentId with
      | none =>
        have hstep : checkOutVisitor db wid n sp t =
            (ApiResult.ok, updateVisitRow db wid (checkoutXform n sp t)) := by
          simp [checkOutVisitor, hw, hst, hA]
        rw [hstep]
        intro vid
        exact le_trans
          (count_updateVisitRow_le db wid (checkoutXform n sp t)
            (fun w => by simp [checkoutXform]) vid)
          (h vid)
      | some aid =>
        have hstep : checkOutVisitor db wid n sp t =
            (ApiResult.ok, setAppointmentStatus
              (updateVisitRow db wid (checkoutXform n sp t))
              aid AppointmentStatus.COMPLETED) := by
          simp [checkOutVisitor, hw, hst, hA]
        rw [hstep]
        intro vid
        exact le_trans
          (count_updateVisitRow_le db wid (checkoutXform n sp t)
            (fun w => by simp [checkoutXform]) vid)
          (h vid)

/-- Cancellation preserves the at-most-one-active invariant. -/
theorem cancelVisit_preserves (db : Db) (wid : Id) (n : Option String)
    (t : Int) (h : AtMostOneActive db) :
    AtMostOneActive (cancelVisit db wid n t).2 := by
  cases hw : findVisit db wid with
  | none =>
    have hstep : cancelVisit db wid n t = (ApiResult.failure 404, db) := by
      simp [cancelVisit, hw]
    rw [hstep]; exact h
  | some visit =>
    cases hst : visit.status != VisitStatus.IN_PROGRESS with
    | true =>
      have hstep : cancelVisit db wid n t = (ApiResult.failure 400, db) := by
        simp [cancelVisit, hw, hst]
      rw [hstep]; exact h
    | false =>
      cases hA : visit.appointmentId with
      | none =>
        have hstep : cancelVisit db wid n t =
            (ApiResult.ok, updateVisitRow db wid (cancelXform n t)) := by
          simp [cancelVisit, hw, hst, hA]
        rw [hstep]
        intro vid
        exact le_trans
          (count_updateVisitRow_le db wid (cancelXform n t)
            (fun w => by simp [cancelXform]) vid)
          (h vid)
      | some aid =>
        have hstep : cancelVisit db wid n t =
            (ApiResult.ok, setAppointmentStatus
              (updateVisitRow db wid (cancelXform n t))
              aid AppointmentStatus.CANCELLED) := by
          simp [cancelVisit, hw, hst, hA]
        rw [hstep]
        intro vid
        exact le_trans
          (count_updateVisitRow_le db wid (cancelXform n t)
            (fun w => by simp [cancelXform]) vid)
          (h vid)

/-- Every queue entry point preserves the at-most-one-active invariant. -/
theorem applyOp_preserves (db : Db) (op : QueueOp) (h : AtMostOneActive db) :
    AtMostOneActive (applyOp db op) := by
  cases op with
  | checkinA v u a n t i => exact createVisit_preserves db v u a n t i h
  | checkinB v u a n t i => exact checkInVisitor_preserves db v u a n t i h
  | checkout w n sp t => exact checkOutVisitor_preserves db w n sp t h
  | cancel w n t => exact cancelVisit_preserves db w n t h

/-- C2 as amended: at most one `IN_PROGRESS` visit per visitor holds in every
state reachable from an invariant-satisfying store through the two check-in
entry points, checkout and cancel; the `PUT /api/visits/[id]` status patch is
excluded because it can re-open a closed visit and break the bound. -/
theorem c2_at_most_one_active (db : Db) (h : AtMostOneActive db) :
    ∀ ops : List QueueOp, AtMostOneActive (ops.foldl applyOp db) := by
  intro ops
  induction ops generalizing db with
  | nil => exact h
  | cons op ops ih => exact ih (applyOp db op) (applyOp_preserves db op h)

/-- C2 witness: the invariant holds after a concrete check-in, checkout,
check-in run from the empty `baseDb`. -/
theorem c2_at_most_one_active_witness :
    AtMostOneActive (List.foldl applyOp baseDb
      [QueueOp.checkinB 1 1 none none 100 10, QueueOp.checkout 10 none none 200,
       QueueOp.checkinB 1 1 none none 300 11]) :=
  c2_at_most_one_active baseDb
    (fun vid => by simp [activeVisitsCount, baseDb])
    [QueueOp.checkinB 1 1 none none 100 10, QueueOp.checkout 10 none none 200,
     QueueOp.checkinB 1 1 none none 300 11]

end VMS
